import Mathlib

/-!
Verification development for the PDF-to-Markdown extraction orchestration
core (files `src/extralit_ocr/extract.py`, `src/extralit_ocr/jobs.py` and
`src/src/app.py`).  The Python source is shallowly embedded: pure functions
become Lean functions, the filesystem becomes an explicit association list
threaded through the output writer, the external PDF library (pymupdf /
pymupdf4llm) and the filename hash (hashlib.sha1 hexdigest) are opaque
collaborators passed in as function parameters, and Python exceptions
become `Except` results.
-/

namespace ExtralitOcr

/-! ## Path and string helpers (modelling `pathlib.Path.stem` and slicing) -/

/-- Split a character list on `/`, as `"...".split("/")` does. -/
def splitOnSlash : List Char → List (List Char)
  | [] => [[]]
  | c :: cs =>
      let r := splitOnSlash cs
      if c = '/' then [] :: r
      else
        match r with
        | [] => [[c]]
        | h :: t => (c :: h) :: t

/-- The last nonempty `/`-separated component of a path string, as
`pathlib.Path(...).name` produces it (trailing slashes ignored). -/
def pathBaseName (name : String) : String :=
  String.mk (((splitOnSlash name.toList).filter (fun c => c ≠ [])).getLastD [])

/-- `pathlib.Path(name).stem`: the base name without its final suffix.
CPython keeps the whole name when the last dot is at index 0 (hidden
files) or is the final character. -/
def pathStem (name : String) : String :=
  let base := pathBaseName name
  let cs := base.toList
  match cs.reverse.findIdx? (fun c => c = '.') with
  | none => base
  | some r =>
      let i := cs.length - 1 - r
      if 0 < i ∧ i < cs.length - 1 then String.mk (cs.take i) else base

/-- Python string slicing `s[:n]` by code points. -/
def strTake (s : String) (n : Nat) : String := String.mk (s.toList.take n)

/-- Python `"-".join(parts)`. -/
def joinParts (sep : String) : List String → String
  | [] => ""
  | [p] => p
  | p :: q :: ps => p ++ sep ++ joinParts sep (q :: ps)

/-- `l` ends with the character sequence `s` (`str.endswith`). -/
def listEndsWith (l s : List Char) : Bool :=
  l.reverse.take s.length == s.reverse

/-- Python `str.lower()` on one character, for the ASCII range relevant to
matching the `".pdf"` suffix. -/
def asciiLower (c : Char) : Char :=
  if 'A' ≤ c ∧ c ≤ 'Z' then Char.ofNat (c.toNat + 32) else c

/-- A lowercase hexadecimal digit, as produced by `hexdigest()`. -/
def isHexChar (c : Char) : Bool := c.isDigit || ('a' ≤ c && c ≤ 'f')

/-- Every character of the string is a lowercase hex digit. -/
def isHexStr (s : String) : Bool := s.toList.all isHexChar

/-! ## `generate_safe_filename` (extract.py lines 60-79)

`hashHex` stands for the external collaborator
`fun s => hashlib.sha1(s.encode("utf-8", errors="ignore")).hexdigest()`:
a pure function from the original filename string to its 40-character
lowercase hex digest.  `now` stands for `int(time.time())`. -/

/-- `Path(original_name).stem[:80] or "document"`. -/
def truncStem (original_name : String) : String :=
  let s := strTake (pathStem original_name) 80
  if s = "" then "document" else s

/-- Embedding of `generate_safe_filename`.  `hash_len` is `Int` because the
Python parameter is an arbitrary int and the guard is `hash_len > 0`. -/
def generate_safe_filename (hashHex : String → String) (original_name : String)
    (include_timestamp : Bool) (hash_len : Int) (suffix : String) (now : Nat) :
    String :=
  let stem := truncStem original_name
  let parts : List String := [stem]
  let parts := if 0 < hash_len
    then parts ++ [strTake (hashHex original_name) hash_len.toNat] else parts
  let parts := if include_timestamp then parts ++ [toString now] else parts
  joinParts "-" parts ++ suffix

/-! ## Configuration (extract.py lines 24-46) -/

abbrev Margins := Int × Int × Int × Int

/-- The dataclass after `__post_init__` ran: `write_dir_path` is the cached
resolved directory (`None` when no directory was configured or the supplied
value was falsy). Path resolution itself (`expanduser().resolve()`) is an
external filesystem concern; directory strings are kept as given. -/
structure ExtractionConfig where
  write_dir_path : Option String
  write_mode : String
  margins : Margins
  header_detection_max_levels : Nat
  header_detection_body_limit : Nat
  safe_filename_timestamp : Bool
  safe_filename_hash_len : Int
deriving DecidableEq, Repr

/-- Embedding of dataclass construction plus `__post_init__`: rejects a
`write_mode` outside {overwrite, skip}, caches the write directory when the
supplied value is truthy (a nonempty string). -/
def ExtractionConfig.make (write_dir : Option String) (write_mode : String)
    (margins : Margins) (maxLevels bodyLimit : Nat)
    (timestamp : Bool) (hashLen : Int) : Except String ExtractionConfig :=
  if write_mode ≠ "overwrite" ∧ write_mode ≠ "skip" then
    .error "write_mode must be 'overwrite' or 'skip'"
  else
    .ok { write_dir_path :=
            match write_dir with
            | none => none
            | some d => if d = "" then none else some d
          write_mode := write_mode
          margins := margins
          header_detection_max_levels := maxLevels
          header_detection_body_limit := bodyLimit
          safe_filename_timestamp := timestamp
          safe_filename_hash_len := hashLen }

/-! ## Filesystem model and `write_markdown_output` (extract.py lines 82-110) -/

/-- The filesystem as an association list from absolute path to content. -/
abbrev FS := List (String × String)

/-- `out_path.exists()`. -/
def FS.hasFile (fs : FS) (p : String) : Bool := (fs.lookup p).isSome

/-- `out_path.write_text(text)`: replaces the file's content. -/
def FS.writeText (fs : FS) (p text : String) : FS :=
  (p, text) :: fs.filter (fun e => e.1 ≠ p)

/-- The `out_path` computed by `write_markdown_output`: the configured
directory joined with the generated artifact name. -/
def resolvedPath (hashHex : String → String) (original_filename : String)
    (config : ExtractionConfig) (dir : String) (now : Nat) : String :=
  dir ++ "/" ++ generate_safe_filename hashHex original_filename
    config.safe_filename_timestamp config.safe_filename_hash_len ".md" now

/-- Embedding of `write_markdown_output`: returns the path written or
skipped (none when no output directory is configured) and the filesystem
after the call. -/
def write_markdown_output (hashHex : String → String)
    (markdown_text original_filename : String) (config : ExtractionConfig)
    (now : Nat) (fs : FS) : Option String × FS :=
  match config.write_dir_path with
  | none => (none, fs)
  | some dir =>
      let out_path := resolvedPath hashHex original_filename config dir now
      if fs.hasFile out_path = true ∧ config.write_mode = "skip" then
        (some out_path, fs)
      else
        (some out_path, fs.writeText out_path markdown_text)

/-! ## Document metadata and the margin resolvers
(extract.py lines 113-146, jobs.py lines 24-57)

`margin_analysis` is a JSON-like dict of pixel values, modelled as an
association list from field name to integer pixel value. -/

abbrev MarginAnalysis := List (String × Int)

structure LayoutAnalysis where
  margin_analysis : Option MarginAnalysis
deriving DecidableEq, Repr

structure AnalysisMetadata where
  layout_analysis : Option LayoutAnalysis
deriving DecidableEq, Repr

structure DocumentProcessingMetadata where
  analysis_metadata : Option AnalysisMetadata
deriving DecidableEq, Repr

/-- Embedding of `extract_document_margins` (extract.py).  The Python
`not x` guards treat `None` and an empty dict as falsy; after the
`all(key in ...)` membership check the four values are read with `int(...)`,
the identity on integer pixel values.  Note: despite the comment in the
source ("Convert pixels to PDF points (multiply by 0.75)"), this variant
performs no conversion.  The broad `except` makes the function total. -/
def extract_document_margins (metadata : DocumentProcessingMetadata) :
    Option Margins :=
  match metadata.analysis_metadata with
  | none => none
  | some am =>
    match am.layout_analysis with
    | none => none
    | some la =>
      match la.margin_analysis with
      | none => none
      | some ma =>
        if ma = [] then none
        else
          match ma.lookup "left_px", ma.lookup "top_px",
                ma.lookup "right_px", ma.lookup "bottom_px" with
          | some l, some t, some r, some b => some (l, t, r, b)
          | _, _, _, _ => none

/-- Python `int(x * 0.75)` on an integer pixel value: the exact product
`3*x/4` truncated toward zero (`Int.div` is T-division). -/
def pxToPoints (x : Int) : Int := Int.tdiv (3 * x) 4

/-- Embedding of `_get_document_margins` (jobs.py): identical traversal to
`extract_document_margins` but each pixel value is converted to PDF points
via `int(value * 0.75)`. -/
def jobs_get_document_margins (metadata : DocumentProcessingMetadata) :
    Option Margins :=
  match metadata.analysis_metadata with
  | none => none
  | some am =>
    match am.layout_analysis with
    | none => none
    | some la =>
      match la.margin_analysis with
      | none => none
      | some ma =>
        if ma = [] then none
        else
          match ma.lookup "left_px", ma.lookup "top_px",
                ma.lookup "right_px", ma.lookup "bottom_px" with
          | some l, some t, some r, some b =>
              some (pxToPoints l, pxToPoints t, pxToPoints r, pxToPoints b)
          | _, _, _, _ => none

/-! ## The orchestrator (extract.py lines 149-227)

The external PDF library is an opaque collaborator.  An opened document is
represented by what the orchestrator reads from it: the embedded table of
contents (`doc.get_toc()`, a list of `(level, title, page)` entries) and
the page count.  Rendering calls return Markdown text or fail with a
message. -/

structure PDFDoc where
  toc : List (Nat × String × Nat)
  page_count : Nat

/-- The collaborator functions of pymupdf / pymupdf4llm used by the
orchestrator: `pymupdf.open(stream=...)`, `to_markdown` with `TocHeaders`,
`to_markdown` with `IdentifyHeaders(max_levels, body_limit)`, and the
optional distinct-level count an `IdentifyHeaders` object may expose. -/
structure PdfLib where
  openPdf : List Nat → Except String PDFDoc
  tocMarkdown : PDFDoc → Margins → Except String String
  identifyMarkdown : PDFDoc → Nat → Nat → Margins → Except String String
  identifyLevels : PDFDoc → Nat → Nat → Option Nat

/-- The metadata dict assembled by `extract_markdown_with_hierarchy`. -/
structure ExtractionMetadata where
  pages : Nat
  toc_entries : Nat
  headers_strategy : String
  header_levels_detected : Option Nat
  margins : Margins
  output_path : Option String
  output_size_chars : Nat
deriving DecidableEq, Repr

/-- Embedding of `extract_markdown_with_hierarchy`.  Raised `ValueError`s
become `Except.error` carrying the message the code builds.  The filesystem
is threaded through the output-writer step. -/
def extract_markdown_with_hierarchy (lib : PdfLib) (hashHex : String → String)
    (file_bytes : List Nat) (original_filename : String)
    (cfg : ExtractionConfig) (now : Nat) (fs : FS) :
    Except String ((String × ExtractionMetadata) × FS) :=
  if file_bytes = [] then .error "Empty PDF content"
  else
    match lib.openPdf file_bytes with
    | .error e => .error ("Failed to open PDF: " ++ e)
    | .ok doc =>
      let toc_entry_count := doc.toc.length
      let rendered : Except String (String × String × Option Nat) :=
        if 0 < toc_entry_count then
          match lib.tocMarkdown doc cfg.margins with
          | .error e => .error e
          | .ok md =>
              .ok ("toc", md, some (doc.toc.map Prod.fst).dedup.length)
        else
          match lib.identifyMarkdown doc cfg.header_detection_max_levels
                  cfg.header_detection_body_limit cfg.margins with
          | .error e => .error e
          | .ok md =>
              .ok ("identify", md,
                lib.identifyLevels doc cfg.header_detection_max_levels
                  cfg.header_detection_body_limit)
      match rendered with
      | .error e => .error ("Markdown conversion failed: " ++ e)
      | .ok (strategy, md, levels) =>
        let written := write_markdown_output hashHex md original_filename cfg now fs
        .ok ((md,
          { pages := doc.page_count
            toc_entries := toc_entry_count
            headers_strategy := strategy
            header_levels_detected := levels
            margins := cfg.margins
            output_path := written.1
            output_size_chars := md.length }), written.2)

/-! ## `should_extract_text` (extract.py lines 235-240)

`file_metadata` is a JSON-like dict whose `"text_extracted"` entry, when
present, is a boolean; `dict.get(key, False)` defaults to false. -/

def should_extract_text (filename : String)
    (file_metadata : List (String × Bool)) : Bool :=
  if !(listEndsWith (filename.toList.map asciiLower) ".pdf".toList) then false
  else !((file_metadata.lookup "text_extracted").getD false)

/-! ## Shared lemmas -/

/-- With the timestamp disabled, the generated filename does not depend on
the clock. -/
theorem generate_safe_filename_time_invariant (hashHex : String → String)
    (name : String) (hash_len : Int) (suffix : String) (now1 now2 : Nat) :
    generate_safe_filename hashHex name false hash_len suffix now1
      = generate_safe_filename hashHex name false hash_len suffix now2 := rfl

/-- A path just written is present in the filesystem. -/
theorem hasFile_writeText_self (fs : FS) (p t : String) :
    FS.hasFile (FS.writeText fs p t) p = true := by
  simp [FS.hasFile, FS.writeText, List.lookup]

/-! ## Claim theorems -/

/-- C1: the claim says both margin resolvers multiply each pixel value by
0.75 and truncate toward zero, so `{left_px:100, top_px:200, right_px:50,
bottom_px:80}` resolves to `(75,150,37,60)`.  The jobs.py resolver does;
the extract.py resolver, despite its own comment "Convert pixels to PDF
points (multiply by 0.75)", returns the raw pixel values `(100,200,50,80)`. -/
theorem margin_conversion_divergence :
    extract_document_margins
        ⟨some ⟨some ⟨some [("left_px", 100), ("top_px", 200),
          ("right_px", 50), ("bottom_px", 80)]⟩⟩⟩
      = some (100, 200, 50, 80)
  ∧ jobs_get_document_margins
        ⟨some ⟨some ⟨some [("left_px", 100), ("top_px", 200),
          ("right_px", 50), ("bottom_px", 80)]⟩⟩⟩
      = some (75, 150, 37, 60) := ⟨rfl, rfl⟩

/-- C4: the margin resolver of extract.py is total (never raises in the
embedding) and returns "unavailable" (`none`) whenever the
`analysis_metadata`, `layout_analysis` or `margin_analysis` link is
missing, or any of the four pixel fields is absent. -/
theorem margin_resolver_unavailable :
    (∀ m : DocumentProcessingMetadata, m.analysis_metadata = none →
        extract_document_margins m = none)
  ∧ (∀ (m : DocumentProcessingMetadata) (am : AnalysisMetadata),
        m.analysis_metadata = some am → am.layout_analysis = none →
        extract_document_margins m = none)
  ∧ (∀ (m : DocumentProcessingMetadata) (am : AnalysisMetadata)
        (la : LayoutAnalysis),
        m.analysis_metadata = some am → am.layout_analysis = some la →
        la.margin_analysis = none → extract_document_margins m = none)
  ∧ (∀ (m : DocumentProcessingMetadata) (am : AnalysisMetadata)
        (la : LayoutAnalysis) (ma : MarginAnalysis),
        m.analysis_metadata = some am → am.layout_analysis = some la →
        la.margin_analysis = some ma →
        (ma.lookup "left_px" = none ∨ ma.lookup "top_px" = none
          ∨ ma.lookup "right_px" = none ∨ ma.lookup "bottom_px" = none) →
        extract_document_margins m = none) := by
  refine ⟨?_, ?_, ?_, ?_⟩
  · intro m h
    simp [extract_document_margins, h]
  · intro m am h1 h2
    simp [extract_document_margins, h1, h2]
  · intro m am la h1 h2 h3
    simp [extract_document_margins, h1, h2, h3]
  · intro m am la ma h1 h2 h3 h4
    simp only [extract_document_margins, h1, h2, h3]
    by_cases hE : ma = []
    · simp [hE]
    · simp only [if_neg hE]
      rcases hl : ma.lookup "left_px" with _ | l <;>
        rcases ht : ma.lookup "top_px" with _ | t <;>
          rcases hr : ma.lookup "right_px" with _ | r <;>
            rcases hb : ma.lookup "bottom_px" with _ | b <;>
              simp_all

/-- C4 witness: each unavailable case evaluated at a concrete record. -/
theorem margin_resolver_unavailable_witness :
    extract_document_margins ⟨none⟩ = none
  ∧ extract_document_margins ⟨some ⟨none⟩⟩ = none
  ∧ extract_document_margins ⟨some ⟨some ⟨none⟩⟩⟩ = none
  ∧ extract_document_margins
      ⟨some ⟨some ⟨some [("left_px", 100), ("top_px", 200),
        ("right_px", 50)]⟩⟩⟩ = none :=
  ⟨margin_resolver_unavailable.1 ⟨none⟩ rfl,
   margin_resolver_unavailable.2.1 ⟨some ⟨none⟩⟩ ⟨none⟩ rfl rfl,
   margin_resolver_unavailable.2.2.1 ⟨some ⟨some ⟨none⟩⟩⟩ ⟨some ⟨none⟩⟩ ⟨none⟩
     rfl rfl rfl,
   margin_resolver_unavailable.2.2.2 _ _ _
     [("left_px", 100), ("top_px", 200), ("right_px", 50)] rfl rfl rfl
     (Or.inr (Or.inr (Or.inr rfl)))⟩

/-- C7: with `include_timestamp=false` the artifact namer is deterministic:
two calls with the same filename, hash length (and hash collaborator)
agree, whatever the clock reads at each call. -/
theorem generate_safe_filename_deterministic (hashHex : String → String)
    (name : String) (hash_len : Int) (suffix : String) (now1 now2 : Nat) :
    generate_safe_filename hashHex name false hash_len suffix now1
      = generate_safe_filename hashHex name false hash_len suffix now2 :=
  generate_safe_filename_time_invariant hashHex name hash_len suffix now1 now2

/-- C10: for `hash_len ≤ 0` the hash part is omitted entirely: with the
timestamp disabled the result is exactly the truncated stem (with the
"document" fallback) followed by ".md", no separator. -/
theorem generate_safe_filename_no_hash (hashHex : String → String)
    (name : String) (now : Nat) (hash_len : Int) (h : hash_len ≤ 0) :
    generate_safe_filename hashHex name false hash_len ".md" now
      = truncStem name ++ ".md" := by
  have hn : ¬ (0 < hash_len) := not_lt.mpr h
  simp [generate_safe_filename, hn, joinParts]

/-- C10 witness: a negative hash length at a concrete filename. -/
theorem generate_safe_filename_no_hash_witness :
    generate_safe_filename (fun s => s) "report.pdf" false (-3) ".md" 7
      = "report.md" :=
  (generate_safe_filename_no_hash (fun s => s) "report.pdf" 7 (-3)
    (by decide)).trans rfl

/-- With a positive hash length and the timestamp disabled, the generated
name is stem, separator, truncated digest, suffix. -/
theorem generate_safe_filename_hash_shape (hashHex : String → String)
    (name : String) (now : Nat) (hash_len : Int) (suffix : String)
    (h : 0 < hash_len) :
    generate_safe_filename hashHex name false hash_len suffix now
      = truncStem name ++ "-" ++ strTake (hashHex name) hash_len.toNat ++ suffix := by
  simp [generate_safe_filename, h, joinParts, String.append_assoc]

/-- Taking a prefix of an all-hex string stays all-hex. -/
theorem isHexStr_strTake (s : String) (n : Nat) (h : isHexStr s = true) :
    isHexStr (strTake s n) = true := by
  simp only [isHexStr, strTake] at *
  exact List.all_eq_true.mpr fun a ha =>
    List.all_eq_true.mp h a (List.mem_of_mem_take ha)

/-- C6: the artifact namer truncates the stem to 80 characters (falling
back to "document"), appends the first `hash_len` characters of the
filename hash when `hash_len > 0`, joins with "-" and appends ".md"; for
"Annual Report 2023.pdf" with `hash_len = 8` and the timestamp disabled the
output is "Annual Report 2023-", eight hex characters, ".md" whenever the
hash collaborator yields 40 hex characters as `sha1.hexdigest` does. -/
theorem generate_safe_filename_shape :
    (∀ (hashHex : String → String) (name : String) (now : Nat)
        (hash_len : Int), 0 < hash_len →
        generate_safe_filename hashHex name false hash_len ".md" now
          = truncStem name ++ "-"
              ++ strTake (hashHex name) hash_len.toNat ++ ".md")
  ∧ (∀ (hashHex : String → String) (now : Nat),
        (hashHex "Annual Report 2023.pdf").length = 40 →
        isHexStr (hashHex "Annual Report 2023.pdf") = true →
        ∃ hx : String,
          generate_safe_filename hashHex "Annual Report 2023.pdf" false 8
              ".md" now
            = "Annual Report 2023-" ++ hx ++ ".md"
          ∧ hx.length = 8 ∧ isHexStr hx = true) := by
  constructor
  · intro hashHex name now hash_len h
    exact generate_safe_filename_hash_shape hashHex name now hash_len ".md" h
  · intro hashHex now h40 hhex
    refine ⟨strTake (hashHex "Annual Report 2023.pdf") 8, ?_, ?_, ?_⟩
    · rw [generate_safe_filename_hash_shape hashHex _ now 8 ".md" (by decide)]
      rfl
    · simp [strTake, String.length_mk, List.length_take, h40]
    · exact isHexStr_strTake _ 8 hhex

/-- C6 witness hash collaborator: a fixed 40-character hex digest. -/
def hashW6 : String → String :=
  fun _ => "0123456789abcdef0123456789abcdef01234567"

/-- C6 witness: the example filename at a concrete hash collaborator. -/
theorem generate_safe_filename_shape_witness :
    ∃ hx : String,
      generate_safe_filename hashW6 "Annual Report 2023.pdf" false 8 ".md" 0
        = "Annual Report 2023-" ++ hx ++ ".md"
      ∧ hx.length = 8 ∧ isHexStr hx = true :=
  generate_safe_filename_shape.2 hashW6 0 rfl rfl

/-- C8: construction of an `ExtractionConfig` with a `write_mode` outside
{overwrite, skip} fails with the invalid-configuration error, and every
successfully constructed configuration has `write_mode` in that set. -/
theorem config_write_mode_validated :
    (∀ (write_dir : Option String) (write_mode : String) (margins : Margins)
        (ml bl : Nat) (ts : Bool) (hl : Int),
        write_mode ≠ "overwrite" → write_mode ≠ "skip" →
        ExtractionConfig.make write_dir write_mode margins ml bl ts hl
          = .error "write_mode must be 'overwrite' or 'skip'")
  ∧ (∀ (write_dir : Option String) (write_mode : String) (margins : Margins)
        (ml bl : Nat) (ts : Bool) (hl : Int) (cfg : ExtractionConfig),
        ExtractionConfig.make write_dir write_mode margins ml bl ts hl
          = .ok cfg →
        (cfg.write_mode = "overwrite" ∨ cfg.write_mode = "skip")) := by
  constructor
  · intro wd mode margins ml bl ts hl h1 h2
    simp [ExtractionConfig.make, h1, h2]
  · intro wd mode margins ml bl ts hl cfg h
    unfold ExtractionConfig.make at h
    by_cases hc : mode ≠ "overwrite" ∧ mode ≠ "skip"
    · rw [if_pos hc] at h
      exact absurd h (by simp)
    · rw [if_neg hc] at h
      injection h with h'
      subst h'
      rcases not_and_or.mp hc with h | h
      · exact Or.inl (not_not.mp h)
      · exact Or.inr (not_not.mp h)

/-- C8 witness: a rejected mode and an accepted one at concrete values. -/
theorem config_write_mode_validated_witness :
    ExtractionConfig.make none "banana" (0, 50, 0, 30) 4 10 true 8
        = .error "write_mode must be 'overwrite' or 'skip'"
  ∧ ((⟨none, "skip", (0, 50, 0, 30), 4, 10, true, 8⟩ :
        ExtractionConfig).write_mode = "overwrite"
      ∨ (⟨none, "skip", (0, 50, 0, 30), 4, 10, true, 8⟩ :
        ExtractionConfig).write_mode = "skip") :=
  ⟨config_write_mode_validated.1 none "banana" (0, 50, 0, 30) 4 10 true 8
      (by decide) (by decide),
   config_write_mode_validated.2 none "skip" (0, 50, 0, 30) 4 10 true 8 _ rfl⟩

/-- The output writer once the directory is configured: skip an existing
file under the skip policy, write otherwise. -/
theorem write_markdown_output_some (hashHex : String → String)
    (md orig : String) (cfg : ExtractionConfig) (now : Nat) (fs : FS)
    (d : String) (hd : cfg.write_dir_path = some d) :
    write_markdown_output hashHex md orig cfg now fs
      = if FS.hasFile fs (resolvedPath hashHex orig cfg d now) = true
            ∧ cfg.write_mode = "skip"
        then (some (resolvedPath hashHex orig cfg d now), fs)
        else (some (resolvedPath hashHex orig cfg d now),
              fs.writeText (resolvedPath hashHex orig cfg d now) md) := by
  simp only [write_markdown_output, hd]

/-- Clock-independence of the resolved path when the timestamp is off. -/
theorem resolvedPath_time_invariant (hashHex : String → String)
    (orig : String) (cfg : ExtractionConfig) (d : String) (now1 now2 : Nat)
    (hts : cfg.safe_filename_timestamp = false) :
    resolvedPath hashHex orig cfg d now2
      = resolvedPath hashHex orig cfg d now1 := by
  unfold resolvedPath
  rw [hts, generate_safe_filename_time_invariant hashHex orig
    cfg.safe_filename_hash_len ".md" now2 now1]

/-- C5: the output writer returns no path and leaves the filesystem
untouched when no directory is configured; under the skip policy an
existing file at the resolved path is returned unmodified; and with the
timestamp disabled, writing twice under skip performs the disk write only
on the first call — the second call returns the first call's path and
leaves the filesystem exactly as the first call left it. -/
theorem write_markdown_output_policy :
    (∀ (hashHex : String → String) (md orig : String)
        (cfg : ExtractionConfig) (now : Nat) (fs : FS),
        cfg.write_dir_path = none →
        write_markdown_output hashHex md orig cfg now fs = (none, fs))
  ∧ (∀ (hashHex : String → String) (md orig : String)
        (cfg : ExtractionConfig) (now : Nat) (fs : FS) (d : String),
        cfg.write_dir_path = some d → cfg.write_mode = "skip" →
        FS.hasFile fs (resolvedPath hashHex orig cfg d now) = true →
        write_markdown_output hashHex md orig cfg now fs
          = (some (resolvedPath hashHex orig cfg d now), fs))
  ∧ (∀ (hashHex : String → String) (md1 md2 orig : String)
        (cfg : ExtractionConfig) (now1 now2 : Nat) (fs : FS),
        cfg.write_mode = "skip" → cfg.safe_filename_timestamp = false →
        write_markdown_output hashHex md2 orig cfg now2
            (write_markdown_output hashHex md1 orig cfg now1 fs).2
          = write_markdown_output hashHex md1 orig cfg now1 fs) := by
  refine ⟨?_, ?_, ?_⟩
  · intro hashHex md orig cfg now fs h
    simp [write_markdown_output, h]
  · intro hashHex md orig cfg now fs d hd hskip hex
    rw [write_markdown_output_some hashHex md orig cfg now fs d hd,
      if_pos ⟨hex, hskip⟩]
  · intro hashHex md1 md2 orig cfg now1 now2 fs hskip hts
    rcases hwd : cfg.write_dir_path with _ | d
    · simp [write_markdown_output, hwd]
    · have hpath := resolvedPath_time_invariant hashHex orig cfg d now1 now2 hts
      by_cases hex : FS.hasFile fs (resolvedPath hashHex orig cfg d now1) = true
          ∧ cfg.write_mode = "skip"
      · have h1 : write_markdown_output hashHex md1 orig cfg now1 fs
            = (some (resolvedPath hashHex orig cfg d now1), fs) := by
          rw [write_markdown_output_some hashHex md1 orig cfg now1 fs d hwd,
            if_pos hex]
        rw [h1]
        show write_markdown_output hashHex md2 orig cfg now2 fs = _
        rw [write_markdown_output_some hashHex md2 orig cfg now2 fs d hwd,
          hpath, if_pos hex]
      · have h1 : write_markdown_output hashHex md1 orig cfg now1 fs
            = (some (resolvedPath hashHex orig cfg d now1),
               fs.writeText (resolvedPath hashHex orig cfg d now1) md1) := by
          rw [write_markdown_output_some hashHex md1 orig cfg now1 fs d hwd,
            if_neg hex]
        rw [h1]
        show write_markdown_output hashHex md2 orig cfg now2
            (fs.writeText (resolvedPath hashHex orig cfg d now1) md1) = _
        rw [write_markdown_output_some hashHex md2 orig cfg now2 _ d hwd,
          hpath, if_pos ⟨hasFile_writeText_self fs _ md1, hskip⟩]

/-- C5 witness hash collaborator. -/
def hashW5 : String → String :=
  fun _ => "0123456789abcdef0123456789abcdef01234567"

/-- C5 witness configuration without an output directory. -/
def cfgNoDir : ExtractionConfig := ⟨none, "overwrite", (0, 50, 0, 30), 4, 10, true, 8⟩

/-- C5 witness configuration: skip policy, timestamp disabled. -/
def cfgSkip : ExtractionConfig := ⟨some "/out", "skip", (0, 50, 0, 30), 4, 10, false, 8⟩

/-- C5 witness: the three behaviours at concrete inputs. -/
theorem write_markdown_output_policy_witness :
    write_markdown_output hashW5 "text" "a.pdf" cfgNoDir 0 [] = (none, [])
  ∧ write_markdown_output hashW5 "new" "a.pdf" cfgSkip 0
        [("/out/a-01234567.md", "old")]
      = (some (resolvedPath hashW5 "a.pdf" cfgSkip "/out" 0),
         [("/out/a-01234567.md", "old")])
  ∧ write_markdown_output hashW5 "second" "a.pdf" cfgSkip 9
        (write_markdown_output hashW5 "first" "a.pdf" cfgSkip 3 []).2
      = write_markdown_output hashW5 "first" "a.pdf" cfgSkip 3 [] :=
  ⟨write_markdown_output_policy.1 hashW5 "text" "a.pdf" cfgNoDir 0 [] rfl,
   write_markdown_output_policy.2.1 hashW5 "new" "a.pdf" cfgSkip 0
     [("/out/a-01234567.md", "old")] "/out" rfl rfl (by rfl),
   write_markdown_output_policy.2.2 hashW5 "first" "second" "a.pdf" cfgSkip
     3 9 [] rfl rfl⟩

/-- C9: `should_extract_text` returns true exactly when the filename ends
with ".pdf" case-insensitively and the metadata's "text_extracted" entry is
absent or false; any non-PDF filename yields false regardless of metadata. -/
theorem should_extract_text_iff (filename : String)
    (file_metadata : List (String × Bool)) :
    should_extract_text filename file_metadata = true ↔
      (listEndsWith (filename.toList.map asciiLower) ".pdf".toList = true
        ∧ (file_metadata.lookup "text_extracted" = none
            ∨ file_metadata.lookup "text_extracted" = some false)) := by
  unfold should_extract_text
  cases hE : listEndsWith (filename.toList.map asciiLower) ".pdf".toList with
  | false => simp [hE]
  | true =>
    cases hL : file_metadata.lookup "text_extracted" with
    | none => simp [hL]
    | some b => cases b <;> simp [hL]

/-- C3: the orchestrator rejects empty byte input with the invalid-input
error regardless of configuration (it never returns a result), and a
failure of the PDF parser yields the invalid-input error carrying the
parser's message. -/
theorem extract_rejects_invalid_input :
    (∀ (lib : PdfLib) (hashHex : String → String) (orig : String)
        (cfg : ExtractionConfig) (now : Nat) (fs : FS),
        extract_markdown_with_hierarchy lib hashHex [] orig cfg now fs
          = .error "Empty PDF content")
  ∧ (∀ (lib : PdfLib) (hashHex : String → String) (file_bytes : List Nat)
        (orig : String) (cfg : ExtractionConfig) (now : Nat) (fs : FS)
        (msg : String),
        file_bytes ≠ [] → lib.openPdf file_bytes = .error msg →
        extract_markdown_with_hierarchy lib hashHex file_bytes orig cfg now fs
          = .error ("Failed to open PDF: " ++ msg)) := by
  constructor
  · intro lib hashHex orig cfg now fs
    rfl
  · intro lib hashHex file_bytes orig cfg now fs msg hne hopen
    simp only [extract_markdown_with_hierarchy, if_neg hne, hopen]

/-- C3 witness PDF library: parsing fails on the byte string `[9]`. -/
def libC3 : PdfLib :=
  { openPdf := fun bs => if bs = [9] then .error "bad xref table" else .ok ⟨[], 1⟩
    tocMarkdown := fun _ _ => .ok ""
    identifyMarkdown := fun _ _ _ _ => .ok ""
    identifyLevels := fun _ _ _ => none }

/-- C3 witness configuration. -/
def cfgC3 : ExtractionConfig := ⟨none, "overwrite", (0, 50, 0, 30), 4, 10, true, 8⟩

/-- C3 witness: empty input and a failing parse at concrete inputs. -/
theorem extract_rejects_invalid_input_witness :
    extract_markdown_with_hierarchy libC3 (fun s => s) [] "a.pdf" cfgC3 0 []
        = .error "Empty PDF content"
  ∧ extract_markdown_with_hierarchy libC3 (fun s => s) [9] "a.pdf" cfgC3 0 []
        = .error ("Failed to open PDF: " ++ "bad xref table") :=
  ⟨extract_rejects_invalid_input.1 libC3 (fun s => s) "a.pdf" cfgC3 0 [],
   extract_rejects_invalid_input.2 libC3 (fun s => s) [9] "a.pdf" cfgC3 0 []
     "bad xref table" (by simp) rfl⟩

/-- C2: on a non-empty, parseable PDF whose embedded TOC is non-empty and
whose rendering succeeds, the orchestrator selects strategy "toc", reports
`toc_entries` equal to the TOC length and `header_levels_detected` equal to
the number of distinct levels in the TOC; with an empty TOC it selects
strategy "identify". -/
theorem extract_strategy_selection :
    (∀ (lib : PdfLib) (hashHex : String → String) (file_bytes : List Nat)
        (orig : String) (cfg : ExtractionConfig) (now : Nat) (fs : FS)
        (doc : PDFDoc) (md : String),
        file_bytes ≠ [] → lib.openPdf file_bytes = .ok doc →
        doc.toc ≠ [] → lib.tocMarkdown doc cfg.margins = .ok md →
        ∃ out fs2,
          extract_markdown_with_hierarchy lib hashHex file_bytes orig cfg now fs
            = .ok (out, fs2)
          ∧ out.2.headers_strategy = "toc"
          ∧ out.2.toc_entries = doc.toc.length
          ∧ out.2.header_levels_detected
              = some (doc.toc.map Prod.fst).dedup.length)
  ∧ (∀ (lib : PdfLib) (hashHex : String → String) (file_bytes : List Nat)
        (orig : String) (cfg : ExtractionConfig) (now : Nat) (fs : FS)
        (doc : PDFDoc) (md : String),
        file_bytes ≠ [] → lib.openPdf file_bytes = .ok doc →
        doc.toc = [] →
        lib.identifyMarkdown doc cfg.header_detection_max_levels
          cfg.header_detection_body_limit cfg.margins = .ok md →
        ∃ out fs2,
          extract_markdown_with_hierarchy lib hashHex file_bytes orig cfg now fs
            = .ok (out, fs2)
          ∧ out.2.headers_strategy = "identify"
          ∧ out.2.toc_entries = 0) := by
  constructor
  · intro lib hashHex file_bytes orig cfg now fs doc md hne hopen htoc hmd
    have hlen : 0 < doc.toc.length := List.length_pos.mpr htoc
    have heval : extract_markdown_with_hierarchy lib hashHex file_bytes orig
        cfg now fs
        = .ok ((md,
            { pages := doc.page_count
              toc_entries := doc.toc.length
              headers_strategy := "toc"
              header_levels_detected := some (doc.toc.map Prod.fst).dedup.length
              margins := cfg.margins
              output_path := (write_markdown_output hashHex md orig cfg now fs).1
              output_size_chars := md.length }),
          (write_markdown_output hashHex md orig cfg now fs).2) := by
      simp only [extract_markdown_with_hierarchy, if_neg hne, hopen, hlen,
        if_true, hmd]
    exact ⟨_, _, heval, rfl, rfl, rfl⟩
  · intro lib hashHex file_bytes orig cfg now fs doc md hne hopen htoc hmd
    have hlen : ¬ 0 < doc.toc.length := by simp [htoc]
    have heval : extract_markdown_with_hierarchy lib hashHex file_bytes orig
        cfg now fs
        = .ok ((md,
            { pages := doc.page_count
              toc_entries := doc.toc.length
              headers_strategy := "identify"
              header_levels_detected := lib.identifyLevels doc
                cfg.header_detection_max_levels cfg.header_detection_body_limit
              margins := cfg.margins
              output_path := (write_markdown_output hashHex md orig cfg now fs).1
              output_size_chars := md.length }),
          (write_markdown_output hashHex md orig cfg now fs).2) := by
      simp only [extract_markdown_with_hierarchy, if_neg hne, hopen,
        if_neg hlen, hmd]
    exact ⟨_, _, heval, rfl, by simp [htoc]⟩

/-- C2 witness document with a three-entry, two-level TOC. -/
def tocDoc : PDFDoc := ⟨[(1, "Intro", 1), (2, "Background", 2), (1, "End", 9)], 9⟩

/-- C2 witness document without a TOC. -/
def plainDoc : PDFDoc := ⟨[], 3⟩

/-- C2 witness PDF library: byte string `[2]` opens the TOC-less document,
anything else the TOC document. -/
def libC2 : PdfLib :=
  { openPdf := fun bs => if bs = [2] then .ok plainDoc else .ok tocDoc
    tocMarkdown := fun _ _ => .ok "# Intro"
    identifyMarkdown := fun _ _ _ _ => .ok "body text"
    identifyLevels := fun _ _ _ => none }

/-- C2 witness configuration. -/
def cfgC2 : ExtractionConfig := ⟨none, "overwrite", (0, 50, 0, 30), 4, 10, true, 8⟩

/-- C2 witness: both strategies at concrete documents. -/
theorem extract_strategy_selection_witness :
    (∃ out fs2,
        extract_markdown_with_hierarchy libC2 (fun s => s) [1] "a.pdf" cfgC2 0 []
          = .ok (out, fs2)
        ∧ out.2.headers_strategy = "toc"
        ∧ out.2.toc_entries = tocDoc.toc.length
        ∧ out.2.header_levels_detected
            = some (tocDoc.toc.map Prod.fst).dedup.length)
  ∧ (∃ out fs2,
        extract_markdown_with_hierarchy libC2 (fun s => s) [2] "a.pdf" cfgC2 0 []
          = .ok (out, fs2)
        ∧ out.2.headers_strategy = "identify"
        ∧ out.2.toc_entries = 0) :=
  ⟨extract_strategy_selection.1 libC2 (fun s => s) [1] "a.pdf" cfgC2 0 []
     tocDoc "# Intro" (by simp) rfl (by simp [tocDoc]) rfl,
   extract_strategy_selection.2 libC2 (fun s => s) [2] "a.pdf" cfgC2 0 []
     plainDoc "body text" (by simp) rfl rfl rfl⟩

end ExtralitOcr
